import Mathlib

/-!
Shallow embedding of the `@wajkie/a11y-core` accessibility library
(focus trapping and restoration from `src/a11y-core/src/focus.ts`, the
screen-reader announcer, and the locale registry), together with proofs
of the behavioural properties claimed in its specification.

DOM elements are modelled as records of the attributes the library
inspects; `document.activeElement` is an `Option Elem` (`none` = null);
values that may be `undefined` in JavaScript are likewise `Option`s, and
JavaScript strict equality `===` between two such nullable values is the
function `jsSame` below (note `null === undefined` is `false`).
-/

/-- Model of a DOM element, carrying exactly the data the library reads:
the upper-case `tagName`, whether an `href` attribute is present, the
literal `tabindex` attribute value when present, whether a `disabled`
attribute is present, and a numeric identity distinguishing distinct
nodes. -/
structure Elem where
  id : Nat
  tag : String
  hrefAttr : Bool
  tabindexAttr : Option String
  disabledAttr : Bool
deriving DecidableEq, Repr

/-- JavaScript strict equality between `document.activeElement`
(an element or `null`) and a possibly-`undefined` element reference:
it holds only when both sides are the same element, since
`null === undefined`, `null === elem` and `undefined === elem` are all
`false`. -/
def jsSame (a b : Option Elem) : Bool :=
  match a, b with
  | some x, some y => x = y
  | _, _ => false

/-- Browser default of the `tabIndex` IDL property when no valid
`tabindex` attribute is present: `0` for natively focusable elements
(buttons, inputs, selects, textareas, and anchors with `href`), `-1`
otherwise. -/
def defaultTabIndex (e : Elem) : Int :=
  if e.tag = "BUTTON" ∨ e.tag = "INPUT" ∨ e.tag = "SELECT" ∨ e.tag = "TEXTAREA"
      ∨ (e.tag = "A" ∧ e.hrefAttr) then 0 else -1

/-- Value of a decimal digit character (code points 48 through 57),
`none` for anything else. -/
def digitVal (c : Char) : Option Nat :=
  if 48 ≤ c.toNat ∧ c.toNat ≤ 57 then some (c.toNat - 48) else none

/-- Accumulating decimal parse of a digit list; fails on a non-digit. -/
def parseNatAux : List Char → Nat → Option Nat
  | [], acc => some acc
  | c :: rest, acc =>
    match digitVal c with
    | some d => parseNatAux rest (acc * 10 + d)
    | none => none

/-- Parse a non-empty digit sequence as a natural number. -/
def parseNatLit (cs : List Char) : Option Nat :=
  match cs with
  | [] => none
  | _ => parseNatAux cs 0

/-- Parse a string as an optionally `-`-signed decimal integer, the way
browsers parse a `tabindex` attribute value. -/
def parseIntLit (s : String) : Option Int :=
  match s.data with
  | '-' :: rest => (parseNatLit rest).map (fun n => -(n : Int))
  | cs => (parseNatLit cs).map (fun n => (n : Int))

/-- The `tabIndex` IDL property: reflects the `tabindex` attribute when it
parses as an integer, and falls back to the browser default otherwise. -/
def tabIndexProp (e : Elem) : Int :=
  match e.tabindexAttr with
  | some s =>
    match parseIntLit s with
    | some n => n
    | none => defaultTabIndex e
  | none => defaultTabIndex e

/-- Translation of `isFocusable` from `src/a11y-core/src/focus.ts`:
`element.tabIndex > 0 || (element.tabIndex === 0 && element.getAttribute("tabIndex") !== null)`
returns true; a present `disabled` attribute returns false; otherwise the
tag is looked up in the natively focusable tag list. -/
def isFocusable (e : Elem) : Bool :=
  if tabIndexProp e > 0 ∨ (tabIndexProp e = 0 ∧ e.tabindexAttr ≠ none) then
    true
  else if e.disabledAttr then
    false
  else
    ["A", "BUTTON", "INPUT", "SELECT", "TEXTAREA"].contains e.tag

/-- Match against the CSS selector used by `trapFocus`:
`button, [href], input, select, textarea, [tabindex]:not([tabindex="-1"])`.
Each disjunct is one comma-separated alternative of the selector; the last
alternative requires a `tabindex` attribute whose literal value is not the
exact string `-1`. -/
def matchesSelector (e : Elem) : Bool :=
  e.tag = "BUTTON"
    ∨ e.hrefAttr
    ∨ e.tag = "INPUT"
    ∨ e.tag = "SELECT"
    ∨ e.tag = "TEXTAREA"
    ∨ (e.tabindexAttr.isSome ∧ e.tabindexAttr ≠ some "-1")

/-- `element.querySelectorAll(...)` inside `trapFocus`: the container's
descendants, in DOM order, that match the selector. A container is given
by its descendant list in DOM order. -/
def focusableElements (container : List Elem) : List Elem :=
  container.filter matchesSelector

/-- `const firstFocusable = focusableElements[0]` (undefined on empty). -/
def firstFocusable (container : List Elem) : Option Elem :=
  (focusableElements container).head?

/-- `const lastFocusable = focusableElements[focusableElements.length - 1]`
(undefined on empty). -/
def lastFocusable (container : List Elem) : Option Elem :=
  (focusableElements container).getLast?

/-- A keyboard event as read by the trap's handler: `e.key` and
`e.shiftKey`. -/
structure KeyEvent where
  key : String
  shiftKey : Bool
deriving DecidableEq, Repr

/-- Translation of `handleKeyDown` from `trapFocus`. Inputs are the
captured `firstFocusable`/`lastFocusable`, the current
`document.activeElement`, and the event; the result is the pair
(was `e.preventDefault()` called, which element `.focus()` was called on,
`none` when no focus call happened). `lastFocusable?.focus()` is the
optional-chaining call: no focus call when the target is undefined. -/
def handleKeyDown (first last active : Option Elem) (e : KeyEvent) :
    Bool × Option Elem :=
  if e.key ≠ "Tab" then (false, none)
  else if e.shiftKey then
    if jsSame active first then (true, last) else (false, none)
  else
    if jsSame active last then (true, first) else (false, none)

/-- The element `trapFocus` focuses at activation time:
`firstFocusable?.focus()` — the first focusable descendant when one
exists, otherwise no focus call. -/
def trapActivationFocus (container : List Elem) : Option Elem :=
  firstFocusable container

/-- JavaScript `addEventListener` on a listener list: appends the handler
unless the identical handler is already registered. Handlers are
identified by a numeric id (each `trapFocus` call creates a fresh
closure). -/
def addEventListener (ls : List Nat) (h : Nat) : List Nat :=
  if h ∈ ls then ls else ls ++ [h]

/-- JavaScript `removeEventListener` on a listener list: removes the first
occurrence of the handler; removing an absent handler is a no-op. -/
def removeEventListener (ls : List Nat) (h : Nat) : List Nat :=
  ls.erase h

/-- The listener list of the container after `trapFocus` installs its
keydown handler `h`. -/
def trapInstall (ls : List Nat) (h : Nat) : List Nat :=
  addEventListener ls h

/-- The cleanup function returned by `trapFocus`:
`element.removeEventListener("keydown", handleKeyDown)`. -/
def trapRelease (ls : List Nat) (h : Nat) : List Nat :=
  removeEventListener ls h

/-- Whether a keydown dispatched to the container invokes handler `h`:
exactly when `h` is among the registered listeners. -/
def dispatchInvokes (ls : List Nat) (h : Nat) : Bool :=
  h ∈ ls

/-- The saved reference of a `FocusManager`
(`previousElement : HTMLElement | null`, `none` = null). An active
element that is not an `HTMLElement` instance is modelled by the flag
`isHTMLElement`. -/
structure ActiveNode where
  elem : Elem
  isHTMLElement : Bool
deriving DecidableEq, Repr

/-- `FocusManager.saveFocus`: stores `document.activeElement` when it is
an `HTMLElement` instance, and `null` otherwise (also when nothing is
focused). -/
def saveFocus (active : Option ActiveNode) : Option Elem :=
  match active with
  | some a => if a.isHTMLElement then some a.elem else none
  | none => none

/-- `FocusManager.restoreFocus`: when a previous element is held (its
`focus` member is always a function on an `HTMLElement`), calls
`focus()` on it, making it the active element; otherwise leaves focus
unchanged. Result is the active element after the call. -/
def restoreFocus (previousElement : Option Elem) (active : Option Elem) :
    Option Elem :=
  match previousElement with
  | some e => some e
  | none => active

/-! ### Locale registry (`src/a11y-core/src/locales/index.ts`) -/

/-- A runtime message table: a JavaScript object mapping message keys to
strings, modelled as an association list. `key in obj` is key presence,
`obj[key]` is lookup. -/
abbrev Table : Type := List (String × String)

/-- JavaScript `key in obj`. -/
def hasKey (t : Table) (k : String) : Bool :=
  (List.lookup k t).isSome

/-- JavaScript `obj[key] = v`: replaces the binding when the key is
present, otherwise adds it. -/
def setKey (t : Table) (k : String) (v : String) : Table :=
  if hasKey t k then
    t.map (fun p => if p.1 = k then (k, v) else p)
  else
    t ++ [(k, v)]

/-- The built-in English message table from `src/a11y-core/src/locales/en.ts`. -/
def enTable : Table :=
  [("skipToContent", "Skip to main content"),
   ("mainNavigation", "Main navigation"),
   ("userMenu", "User menu"),
   ("breadcrumb", "Breadcrumb"),
   ("pagination", "Pagination"),
   ("siteNavigation", "Site navigation"),
   ("footerNavigation", "Footer navigation"),
   ("close", "Close"),
   ("open", "Open"),
   ("save", "Save"),
   ("cancel", "Cancel"),
   ("delete", "Delete"),
   ("edit", "Edit"),
   ("submit", "Submit"),
   ("search", "Search"),
   ("loading", "Loading"),
   ("menu", "Menu"),
   ("nextPage", "Next page"),
   ("previousPage", "Previous page"),
   ("currentPage", "Current page"),
   ("goToPage", "Go to page"),
   ("home", "Home"),
   ("dashboard", "Dashboard"),
   ("settings", "Settings"),
   ("profile", "Profile"),
   ("login", "Log in"),
   ("logout", "Log out"),
   ("register", "Register"),
   ("account", "Account"),
   ("customers", "Customers"),
   ("companies", "Companies"),
   ("modules", "Modules"),
   ("required", "Required"),
   ("optional", "Optional"),
   ("error", "Error"),
   ("success", "Success")]

/-- The built-in Swedish message table from `src/a11y-core/src/locales/sv.ts`. -/
def svTable : Table :=
  [("skipToContent", "Hoppa till huvudinnehåll"),
   ("mainNavigation", "Huvudnavigering"),
   ("userMenu", "Användarmeny"),
   ("breadcrumb", "Navigeringsstig"),
   ("pagination", "Sidnumrering"),
   ("siteNavigation", "Webbplatsnavigering"),
   ("footerNavigation", "Sidfot navigering"),
   ("close", "Stäng"),
   ("open", "Öppna"),
   ("save", "Spara"),
   ("cancel", "Avbryt"),
   ("delete", "Ta bort"),
   ("edit", "Redigera"),
   ("submit", "Skicka"),
   ("search", "Sök"),
   ("loading", "Laddar"),
   ("menu", "Meny"),
   ("nextPage", "Nästa sida"),
   ("previousPage", "Föregående sida"),
   ("currentPage", "Nuvarande sida"),
   ("goToPage", "Gå till sida"),
   ("home", "Hem"),
   ("dashboard", "Översikt"),
   ("settings", "Inställningar"),
   ("profile", "Profil"),
   ("login", "Logga in"),
   ("logout", "Logga ut"),
   ("register", "Registrera"),
   ("account", "Konto"),
   ("customers", "Kunder"),
   ("companies", "Företag"),
   ("modules", "Moduler"),
   ("required", "Obligatorisk"),
   ("optional", "Valfri"),
   ("error", "Fel"),
   ("success", "Lyckades")]

/-- The `requiredKeys` array of `registerLocale`, exactly as listed in the
source (32 keys; the source list stops at `modules` and does not include
the four States-and-Status keys of the `A11yMessages` interface). -/
def requiredKeys : List String :=
  ["skipToContent", "mainNavigation", "userMenu", "breadcrumb", "pagination",
   "siteNavigation", "footerNavigation", "close", "open", "save", "cancel",
   "delete", "edit", "submit", "search", "loading", "menu", "nextPage",
   "previousPage", "currentPage", "goToPage", "home", "dashboard", "settings",
   "profile", "login", "logout", "register", "account", "customers",
   "companies", "modules"]

/-- The keys of the `A11yMessages` interface (36 keys), in declaration
order. -/
def a11yMessageKeys : List String :=
  requiredKeys ++ ["required", "optional", "error", "success"]

/-- The module-level mutable state of the locale subsystem: the
`localeData` registry, the `currentLocale` pointer and the active
`messages` table. -/
structure LocaleState where
  localeData : List (String × Table)
  currentLocale : String
  messages : Table
deriving DecidableEq

/-- The state at module load:
`localeData = buildup en/sv`, `currentLocale = 'en'`, `messages = enMessages`. -/
def initLocaleState : LocaleState :=
  ⟨[("en", enTable), ("sv", svTable)], "en", enTable⟩

/-- Registry assignment `localeData[locale] = table`. -/
def setRegistry (d : List (String × Table)) (locale : String) (t : Table) :
    List (String × Table) :=
  if (List.lookup locale d).isSome then
    d.map (fun p => if p.1 = locale then (locale, t) else p)
  else
    d ++ [(locale, t)]

/-- Translation of `registerLocale(locale, localeMessages)`. The second
argument is `none` when the caller passes `null`/`undefined` (the
`!localeMessages || typeof localeMessages !== 'object'` guard). Returns
the new state and the list of console messages emitted. -/
def registerLocale (locale : String) (localeMessages : Option Table)
    (st : LocaleState) : LocaleState × List String :=
  if locale = "" then
    (st, ["error: registerLocale: locale code is required"])
  else
    match localeMessages with
    | none =>
      (st, ["error: registerLocale: localeMessages must be an object"])
    | some t =>
      let missingKeys := requiredKeys.filter (fun k => ¬ hasKey t k)
      if missingKeys ≠ [] then
        (st, ["error: registerLocale: missing required message keys"])
      else
        ({st with localeData := setRegistry st.localeData locale t}, [])

/-- Translation of `setLocale(locale)`: on a falsy code, log and return; on
an unregistered code, log a warning and fall back to `localeData.en` with
the pointer set to `en`; otherwise update the pointer and active table. -/
def setLocale (locale : String) (st : LocaleState) :
    LocaleState × List String :=
  if locale = "" then
    (st, ["error: setLocale: locale code is required"])
  else
    match List.lookup locale st.localeData with
    | none =>
      ({st with currentLocale := "en",
                messages := (List.lookup "en" st.localeData).getD []},
       ["warn: setLocale: locale not found, falling back to English"])
    | some t =>
      ({st with currentLocale := locale, messages := t}, [])

/-- `getCurrentLocale()`. -/
def getCurrentLocale (st : LocaleState) : String :=
  st.currentLocale

/-- `getMessages()`. -/
def getMessages (st : LocaleState) : Table :=
  st.messages

/-! ### Screen-reader announcer (`announceToScreenReader`) -/

/-- The announcement priority parameter, defaulting to polite. -/
inductive Priority where
  | polite
  | assertive
deriving DecidableEq, Repr

/-- The `aria-live` string written for a priority. -/
def Priority.toAttr : Priority → String
  | .polite => "polite"
  | .assertive => "assertive"

/-- A live-region element created by the announcer: its `role`,
`aria-live` and `aria-atomic` attributes and its text content. -/
structure AnnElem where
  role : String
  ariaLive : String
  ariaAtomic : String
  text : String
deriving DecidableEq, Repr

/-- The element `announceToScreenReader` builds for a message and
priority: `role="status"`, `aria-live` set to the priority,
`aria-atomic="true"`, text content set to the message. -/
def mkAnnouncement (message : String) (priority : Priority) : AnnElem :=
  ⟨"status", priority.toAttr, "true", message⟩

/-- Translation of `announceToScreenReader(message, priority = 'polite')`.
`hasDocument` models `typeof document !== 'undefined'`; `body` is the
child list of `document.body`. Returns the new body, the scheduled
timeouts as (delay in ms, element to remove) pairs, and the console
messages emitted. -/
def announceToScreenReader (hasDocument : Bool) (body : List AnnElem)
    (message : String) (priority : Priority := Priority.polite) :
    List AnnElem × List (Nat × AnnElem) × List String :=
  if ¬ hasDocument then
    (body, [], ["warn: announceToScreenReader: non-browser environment"])
  else if message = "" then
    (body, [], ["warn: announceToScreenReader: empty message provided"])
  else
    let announcement := mkAnnouncement message priority
    (body ++ [announcement], [(1000, announcement)], [])

/-- The timeout callback scheduled by the announcer:
`document.body.removeChild(announcement)` removes that child from the
body. -/
def runAnnouncementTimeout (body : List AnnElem) (announcement : AnnElem) :
    List AnnElem :=
  body.erase announcement

/-! ### Specification-side definitions (for refinement comparisons) -/

/-- Whether an element carries an explicit `tabindex` attribute with a
non-negative integer value (the notion the specification claim uses). -/
def hasNonNegativeTabindex (e : Elem) : Bool :=
  match e.tabindexAttr with
  | some s =>
    match parseIntLit s with
    | some n => decide (0 ≤ n)
    | none => false
  | none => false

/-- Focusable set as the specification claim words it: anchors with
`href`, buttons, inputs, selects, textareas, and elements with an
explicit non-negative `tabindex`, in DOM order. Written from the
specification text, to be compared with `focusableElements`. -/
def claimFocusableSet (container : List Elem) : List Elem :=
  container.filter (fun e =>
    (e.tag = "A" ∧ e.hrefAttr)
      ∨ e.tag = "BUTTON" ∨ e.tag = "INPUT" ∨ e.tag = "SELECT"
      ∨ e.tag = "TEXTAREA"
      ∨ hasNonNegativeTabindex e)

/-- Whether an element carries an explicit `tabindex` attribute whose
literal value is not the string `-1` (the notion the amended claim
uses). -/
def literalTabindexNotMinusOne (e : Elem) : Bool :=
  match e.tabindexAttr with
  | some s => s ≠ "-1"
  | none => false

/-- Focusable set as the amended claim words it: elements with an `href`
attribute (of any tag), buttons, inputs, selects, textareas, and elements
with an explicit `tabindex` attribute whose literal value is not `-1`, in
DOM order. Written from the amended specification text, to be compared
with `focusableElements`. -/
def amendedFocusableSet (container : List Elem) : List Elem :=
  container.filter (fun e =>
    e.hrefAttr
      ∨ e.tag = "BUTTON" ∨ e.tag = "INPUT" ∨ e.tag = "SELECT"
      ∨ e.tag = "TEXTAREA"
      ∨ literalTabindexNotMinusOne e)

/-! ### Concrete elements used in witnesses and counterexamples -/

/-- A `span` carrying an `href` attribute: matched by the `[href]`
selector alternative although it is not an anchor. -/
def spanWithHref : Elem := ⟨0, "SPAN", true, none, false⟩

/-- A `div` with `tabindex="-2"`: an explicit negative tabindex that is
not the literal string `-1`, so the selector matches it. -/
def divTabindexMinusTwo : Elem := ⟨1, "DIV", false, some "-2", false⟩

/-- A plain button element. -/
def buttonElem : Elem := ⟨2, "BUTTON", false, none, false⟩

/-- An anchor with an `href` attribute. -/
def anchorElem : Elem := ⟨3, "A", true, none, false⟩

/-- A plain `div` with no focusable traits. -/
def plainDiv : Elem := ⟨4, "DIV", false, none, false⟩

/-- A text input element. -/
def inputElem : Elem := ⟨5, "INPUT", false, none, false⟩

/-! ## Claims about the focus trap -/

/-- Claim C2, counterexample: in a container holding a `span` with an
`href` attribute and a `div` with `tabindex="-2"`, the claim's focusable
set (anchors with href, the native tags, non-negative explicit tabindex)
is empty, yet the code's selector matches both elements and activation
focuses the span. So the computed set is not the claim's set and an
element outside the claim's set receives focus. -/
theorem trapFocus_selector_counterexample :
    focusableElements [spanWithHref, divTabindexMinusTwo] =
        [spanWithHref, divTabindexMinusTwo]
      ∧ claimFocusableSet [spanWithHref, divTabindexMinusTwo] = []
      ∧ trapActivationFocus [spanWithHref, divTabindexMinusTwo] =
          some spanWithHref := by
  refine ⟨rfl, by decide, rfl⟩

/-- Claim C2 (amended): for every container, activating the trap computes
the focusable set as exactly the container's descendants that have an
`href` attribute (any tag), are buttons, inputs, selects or textareas, or
carry an explicit `tabindex` attribute whose literal value is not `-1`
(negative values such as `-2` included), in DOM order, and the activation
focus call targets the first element of that set (no call when the set is
empty). -/
theorem trapFocus_focusable_set (container : List Elem) :
    focusableElements container = amendedFocusableSet container
      ∧ trapActivationFocus container =
          (amendedFocusableSet container).head? := by
  have hset : focusableElements container = amendedFocusableSet container := by
    unfold focusableElements amendedFocusableSet
    apply List.filter_congr
    intro e _
    unfold matchesSelector literalTabindexNotMinusOne
    cases h : e.tabindexAttr with
    | none =>
      simp [h]
      cases hh : e.hrefAttr <;> simp [hh]
    | some s =>
      simp [h]
      cases hh : e.hrefAttr <;> simp [hh]
  refine ⟨hset, ?_⟩
  unfold trapActivationFocus firstFocusable
  rw [hset]

/-- Claim C3: with a non-empty focusable set, the keydown handler wraps
backward (Shift+Tab on the first element prevents default and focuses the
last), wraps forward (Tab on the last element prevents default and
focuses the first), and passes every other Tab press through unmodified
(no `preventDefault`, no focus call). -/
theorem trapFocus_tab_wrap (container : List Elem) (f l : Elem)
    (hf : firstFocusable container = some f)
    (hl : lastFocusable container = some l) :
    handleKeyDown (firstFocusable container) (lastFocusable container)
        (some f) ⟨"Tab", true⟩ = (true, some l)
      ∧ handleKeyDown (firstFocusable container) (lastFocusable container)
          (some l) ⟨"Tab", false⟩ = (true, some f)
      ∧ (∀ active : Option Elem, jsSame active (some f) = false →
          handleKeyDown (firstFocusable container) (lastFocusable container)
            active ⟨"Tab", true⟩ = (false, none))
      ∧ (∀ active : Option Elem, jsSame active (some l) = false →
          handleKeyDown (firstFocusable container) (lastFocusable container)
            active ⟨"Tab", false⟩ = (false, none)) := by
  rw [hf, hl]
  refine ⟨?_, ?_, ?_, ?_⟩
  · simp [handleKeyDown, jsSame]
  · simp [handleKeyDown, jsSame]
  · intro active ha
    simp [handleKeyDown, ha]
  · intro active ha
    simp [handleKeyDown, ha]

/-- Witness for C3 at the container `[button, input]`: Shift+Tab on the
first focusable wraps to the last. -/
theorem trapFocus_tab_wrap_witness :
    handleKeyDown (firstFocusable [buttonElem, inputElem])
        (lastFocusable [buttonElem, inputElem])
        (some buttonElem) ⟨"Tab", true⟩ = (true, some inputElem) :=
  (trapFocus_tab_wrap [buttonElem, inputElem] buttonElem inputElem
    (by decide) (by decide)).1

/-- Claim C9: on a container with zero focusable descendants, activation
performs no focus call, the captured first/last focusable references are
both undefined, and the keydown handler is a guard that for every event
and every focus state calls neither `preventDefault` nor `.focus()` —
in particular it never dereferences the undefined references. -/
theorem trapFocus_empty_container_safe (container : List Elem)
    (h : focusableElements container = []) :
    trapActivationFocus container = none
      ∧ firstFocusable container = none
      ∧ lastFocusable container = none
      ∧ (∀ (active : Option Elem) (e : KeyEvent),
          handleKeyDown (firstFocusable container) (lastFocusable container)
            active e = (false, none)) := by
  have hfst : firstFocusable container = none := by
    unfold firstFocusable
    rw [h]
    rfl
  have hlst : lastFocusable container = none := by
    unfold lastFocusable
    rw [h]
    rfl
  refine ⟨hfst, hfst, hlst, ?_⟩
  intro active e
  rw [hfst, hlst]
  have hj : ∀ a : Option Elem, jsSame a none = false := by
    intro a
    cases a <;> rfl
  simp [handleKeyDown, hj]

/-- Witness for C9 at a container holding only a plain `div`. -/
theorem trapFocus_empty_container_safe_witness :
    trapActivationFocus [plainDiv] = none :=
  (trapFocus_empty_container_safe [plainDiv] (by decide)).1

/-- Claim C6: `isFocusable` applies its rules in order — an explicit
tabindex greater than zero, or tabindex equal to zero with the attribute
literally present, yields focusable regardless of everything else; a
present `disabled` attribute then yields not focusable; then a tag among
the natively focusable interactive tags yields focusable; otherwise the
element is not focusable. -/
theorem isFocusable_rule_order (e : Elem) :
    (tabIndexProp e > 0 → isFocusable e = true)
      ∧ (tabIndexProp e = 0 ∧ e.tabindexAttr ≠ none → isFocusable e = true)
      ∧ (¬(tabIndexProp e > 0 ∨ (tabIndexProp e = 0 ∧ e.tabindexAttr ≠ none)) →
          e.disabledAttr = true → isFocusable e = false)
      ∧ (¬(tabIndexProp e > 0 ∨ (tabIndexProp e = 0 ∧ e.tabindexAttr ≠ none)) →
          e.disabledAttr = false →
          ["A", "BUTTON", "INPUT", "SELECT", "TEXTAREA"].contains e.tag = true →
          isFocusable e = true)
      ∧ (¬(tabIndexProp e > 0 ∨ (tabIndexProp e = 0 ∧ e.tabindexAttr ≠ none)) →
          e.disabledAttr = false →
          ["A", "BUTTON", "INPUT", "SELECT", "TEXTAREA"].contains e.tag = false →
          isFocusable e = false) := by
  unfold isFocusable
  refine ⟨?_, ?_, ?_, ?_, ?_⟩
  · intro h1
    rw [if_pos (Or.inl h1)]
  · intro h1
    rw [if_pos (Or.inr h1)]
  · intro h1 h2
    rw [if_neg h1, if_pos h2]
  · intro h1 h2 h3
    rw [if_neg h1]
    simp [h2]
    simpa using h3
  · intro h1 h2 h3
    rw [if_neg h1]
    simp [h2]
    simpa using h3

/-- Witness for C6: an anchor with `href` and no explicit tabindex is
focusable through the native-tag rule. -/
theorem isFocusable_rule_order_witness :
    isFocusable anchorElem = true :=
  (isFocusable_rule_order anchorElem).2.2.2.1 (by decide) (by decide)
    (by decide)

/-! ## Claims about focus restoration -/

/-- Initial value of `FocusManager.previousElement` (`null`). -/
def initFocusManager : Option Elem := none

/-- Claim C4: saving focus while an `HTMLElement` holds focus lets
`restoreFocus` return focus to exactly that element no matter where focus
moved in between; restoring again without an intervening save re-focuses
the same element; and restoring on a fresh manager (no save yet) changes
nothing and performs no call at all. -/
theorem focusManager_save_restore (a : ActiveNode)
    (hhtml : a.isHTMLElement = true) (moved : Option Elem) :
    restoreFocus (saveFocus (some a)) moved = some a.elem
      ∧ restoreFocus (saveFocus (some a))
          (restoreFocus (saveFocus (some a)) moved) = some a.elem
      ∧ (∀ active : Option Elem, restoreFocus initFocusManager active = active) := by
  have hsave : saveFocus (some a) = some a.elem := by
    simp [saveFocus, hhtml]
  refine ⟨?_, ?_, ?_⟩
  · rw [hsave]; rfl
  · rw [hsave]; rfl
  · intro active; rfl

/-- Witness for C4: saving focus on a button, moving focus to an input,
then restoring, focuses the button again. -/
theorem focusManager_save_restore_witness :
    restoreFocus (saveFocus (some ⟨buttonElem, true⟩)) (some inputElem) =
      some buttonElem :=
  (focusManager_save_restore ⟨buttonElem, true⟩ (by decide)
    (some inputElem)).1

/-- Claim C8: installing the trap's keydown handler and then calling the
returned release function removes the listener, so a subsequent keydown
dispatch no longer invokes it, and a second release call is a no-op
rather than an error. The handler of a `trapFocus` call is a fresh
closure, hence not already registered. -/
theorem trapRelease_removes_listener (ls : List Nat) (h : Nat)
    (hfresh : h ∉ ls) :
    dispatchInvokes (trapInstall ls h) h = true
      ∧ trapRelease (trapInstall ls h) h = ls
      ∧ dispatchInvokes (trapRelease (trapInstall ls h) h) h = false
      ∧ trapRelease (trapRelease (trapInstall ls h) h) h =
          trapRelease (trapInstall ls h) h := by
  have hinstall : trapInstall ls h = ls ++ [h] := by
    unfold trapInstall addEventListener
    rw [if_neg hfresh]
  have herase : (ls ++ [h]).erase h = ls := by
    rw [List.erase_append_right _ hfresh]
    simp
  have hrel : trapRelease (trapInstall ls h) h = ls := by
    unfold trapRelease removeEventListener
    rw [hinstall, herase]
  refine ⟨?_, hrel, ?_, ?_⟩
  · unfold dispatchInvokes
    rw [hinstall]
    simp
  · unfold dispatchInvokes
    rw [hrel]
    simp [hfresh]
  · rw [hrel]
    unfold trapRelease removeEventListener
    rw [List.erase_of_not_mem hfresh]

/-- Witness for C8 with no pre-existing listeners and handler id 0. -/
theorem trapRelease_removes_listener_witness :
    trapRelease (trapInstall [] 0) 0 = [] :=
  (trapRelease_removes_listener [] 0 (by decide)).2.1

/-! ## Claim about the screen-reader announcer -/

/-- Claim C7: without a document context, or with an empty message, the
announcer only logs — the body is unchanged and no timeout is scheduled
(and, being a total function, it never throws). Otherwise it appends
exactly one element, with `role="status"` and the requested `aria-live`
priority (`polite` written as "polite", `assertive` as "assertive"),
schedules its removal after the fixed 1000 ms delay, and running that
timeout restores the original body. The freshness hypothesis reflects
that `document.createElement` returns a node distinct from every node
already in the body. -/
theorem announceToScreenReader_spec (hasDocument : Bool)
    (body : List AnnElem) (message : String) (priority : Priority)
    (hfresh : mkAnnouncement message priority ∉ body) :
    (hasDocument = false →
        announceToScreenReader hasDocument body message priority =
          (body, [], ["warn: announceToScreenReader: non-browser environment"]))
      ∧ (message = "" →
          announceToScreenReader true body message priority =
            (body, [], ["warn: announceToScreenReader: empty message provided"]))
      ∧ (hasDocument = true → message ≠ "" →
          announceToScreenReader hasDocument body message priority =
            (body ++ [mkAnnouncement message priority],
             [(1000, mkAnnouncement message priority)], [])
          ∧ runAnnouncementTimeout (body ++ [mkAnnouncement message priority])
              (mkAnnouncement message priority) = body)
      ∧ (mkAnnouncement message priority).role = "status"
      ∧ (mkAnnouncement message priority).ariaLive = priority.toAttr
      ∧ Priority.toAttr Priority.polite = "polite"
      ∧ Priority.toAttr Priority.assertive = "assertive" := by
  refine ⟨?_, ?_, ?_, rfl, rfl, rfl, rfl⟩
  · intro hd
    simp [announceToScreenReader, hd]
  · intro hm
    simp [announceToScreenReader, hm]
  · intro hd hm
    constructor
    · simp [announceToScreenReader, hd, hm]
    · unfold runAnnouncementTimeout
      rw [List.erase_append_right _ hfresh]
      simp
/-- Witness for C7: announcing "x" politely into an empty body appends
one status element and the scheduled timeout removes it again. -/
theorem announceToScreenReader_spec_witness :
    announceToScreenReader true [] "x" Priority.polite =
        ([mkAnnouncement "x" Priority.polite],
         [(1000, mkAnnouncement "x" Priority.polite)], [])
      ∧ runAnnouncementTimeout [mkAnnouncement "x" Priority.polite]
          (mkAnnouncement "x" Priority.polite) = [] :=
  (announceToScreenReader_spec true [] "x" Priority.polite
    (by decide)).2.2.1 rfl (by decide)

/-! ## Claims about the locale registry -/

/-- A message table holding exactly the 32 keys of the source's
`requiredKeys` array, missing the four States-and-Status keys of the
`A11yMessages` interface (`required`, `optional`, `error`, `success`). -/
def incompleteTable : Table := enTable.take 32

/-- Claim C1, evaluation at the failing input: `incompleteTable` is
missing the interface key `success`, yet `registerLocale` accepts it —
the registry gains an entry for `xx` and nothing is logged — because the
source's `requiredKeys` array stops at `modules` and never checks the
four States-and-Status keys its own error message (pointing at the
`A11yMessages` interface) says are required. -/
theorem registerLocale_accepts_incomplete_table :
    hasKey incompleteTable "success" = false
      ∧ a11yMessageKeys.contains "success" = true
      ∧ (registerLocale "xx" (some incompleteTable) initLocaleState).1.localeData =
          initLocaleState.localeData ++ [("xx", incompleteTable)]
      ∧ (registerLocale "xx" (some incompleteTable) initLocaleState).2 = [] := by
  refine ⟨rfl, rfl, rfl, rfl⟩

/-- Claim C5, counterexample: after `setLocale('sv')`, the empty string is
a locale code with no registered table, yet `setLocale('')` takes the
falsy-argument guard — it logs an error and returns without touching the
state — so the current locale stays `sv` instead of falling back to
`en` with the English table. -/
theorem setLocale_empty_code_counterexample :
    List.lookup "" ((setLocale "sv" initLocaleState).1.localeData) = none
      ∧ getCurrentLocale (setLocale "" (setLocale "sv" initLocaleState).1).1 =
          "sv"
      ∧ getMessages (setLocale "" (setLocale "sv" initLocaleState).1).1 =
          svTable := by
  refine ⟨rfl, rfl, rfl⟩

/-- Claim C5 (amended): `setLocale('sv')` makes `getMessages().close`
equal `"Stäng"` and `getCurrentLocale()` equal `sv`; and for every
non-empty locale code with no registered table — in a state where `en`
still maps to the built-in English table — `setLocale` logs a warning,
sets the current-locale pointer to `en` and the active table to the
English messages. -/
theorem setLocale_sv_and_unknown_fallback (code : String) (st : LocaleState)
    (hne : code ≠ "")
    (hmiss : List.lookup code st.localeData = none)
    (hen : List.lookup "en" st.localeData = some enTable) :
    List.lookup "close" (getMessages (setLocale "sv" initLocaleState).1) =
        some "Stäng"
      ∧ getCurrentLocale (setLocale "sv" initLocaleState).1 = "sv"
      ∧ getCurrentLocale (setLocale code st).1 = "en"
      ∧ getMessages (setLocale code st).1 = enTable
      ∧ (setLocale code st).2 ≠ [] := by
  refine ⟨rfl, rfl, ?_, ?_, ?_⟩ <;>
    simp [setLocale, getCurrentLocale, getMessages, hne, hmiss, hen]

/-- Witness for C5 at the unregistered code `unknown` in the initial
state. -/
theorem setLocale_sv_and_unknown_fallback_witness :
    getCurrentLocale (setLocale "unknown" initLocaleState).1 = "en"
      ∧ getMessages (setLocale "unknown" initLocaleState).1 = enTable :=
  ⟨(setLocale_sv_and_unknown_fallback "unknown" initLocaleState (by decide)
      (by decide) rfl).2.2.1,
   (setLocale_sv_and_unknown_fallback "unknown" initLocaleState (by decide)
      (by decide) rfl).2.2.2.1⟩

/-- Claim C10: `registerLocale` — accepted or rejected, and even when the
code equals the currently active locale — never changes the current
locale or the active message table; only a later `setLocale` can make a
registered table active. -/
theorem registerLocale_preserves_active_state (locale : String)
    (t : Option Table) (st : LocaleState) :
    getCurrentLocale (registerLocale locale t st).1 = getCurrentLocale st
      ∧ getMessages (registerLocale locale t st).1 = getMessages st := by
  have h : ((registerLocale locale t st).1).currentLocale = st.currentLocale
      ∧ ((registerLocale locale t st).1).messages = st.messages := by
    unfold registerLocale
    by_cases hl : locale = ""
    · rw [if_pos hl]
      exact ⟨rfl, rfl⟩
    · rw [if_neg hl]
      cases t with
      | none => exact ⟨rfl, rfl⟩
      | some tt =>
        dsimp only
        split
        · exact ⟨rfl, rfl⟩
        · exact ⟨rfl, rfl⟩
  exact h
